import Mathlib

/-!
Verification of the snapshot/power-control scripts in `lib/scripts/`
(`hetzner_cloud.py` and `proxmox_api.py`).

The provider interactions (SDK calls that may raise exceptions) are modelled
by an explicit environment record whose fields are `Except String _` values:
`.error e` models the Python call raising an exception with message `e`,
caught by the surrounding `try/except`.  JSON documents are modelled by the
inductive `JVal`; `json.dumps` itself is not modelled, the proved statements
are about the dictionary that is serialized.  The wall-clock timestamp
`datetime.now().isoformat()` is passed in as an explicit parameter `ts`.
Operations that issue provider-side effects (image create, start post,
status poll) return the count of such calls alongside the response, so that
"issues zero / exactly one provider call" is a statement about the result.
-/

/-- JSON values, the shape of the dictionaries built by the scripts. -/
inductive JVal where
  | jnull : JVal
  | jbool : Bool → JVal
  | jnum : Int → JVal
  | jstr : String → JVal
  | jarr : List JVal → JVal
  | jobj : List (String × JVal) → JVal

/-- Field lookup in a JSON object (first binding wins, as in a Python dict
built once with distinct keys). -/
def JVal.getField : JVal → String → Option JVal
  | .jobj l, k => List.lookup k l
  | _, _ => none

/-- Whether a JSON object carries the key `k`. -/
def JVal.hasKey (v : JVal) (k : String) : Bool := (v.getField k).isSome

/-- Python truthiness of an optional dict (`None` and `{}` are falsy). -/
def pyTruthyDict : Option (List (String × JVal)) → Bool
  | none => false
  | some d => !d.isEmpty

/-- Python truthiness of an optional string (`None` and `""` are falsy). -/
def pyTruthyStr : Option String → Bool
  | none => false
  | some s => !s.isEmpty

/-- Optional string to JSON (`None` becomes `null`). -/
def jOptStr : Option String → JVal
  | some s => .jstr s
  | none => .jnull

/-- Optional integer to JSON (`None` becomes `null`). -/
def jOptNum : Option Int → JVal
  | some n => .jnum n
  | none => .jnull

namespace Hetzner

/-- The `f"Server {server_id} not found"` message. -/
def server_not_found_message (server_id : Int) : String :=
  s!"Server {server_id} not found"

/-- The `f"Snapshot {snapshot_id} not found"` message. -/
def snapshot_not_found_message (snapshot_id : Int) : String :=
  s!"Snapshot {snapshot_id} not found"

/-- The message returned when a snapshot is already being created. -/
def in_progress_message (d : String) : String :=
  s!"Snapshot already in progress: {d}. Will wait for it to complete."

/-- The `wait_for_snapshot` timeout message. -/
def timeout_message (timeout : Int) : String :=
  s!"Snapshot creation timed out after {timeout} seconds"

/-- The `wait_for_snapshot` unexpected-status message. -/
def unexpected_status_message (st : String) : String :=
  s!"Unexpected snapshot status: {st}"

/-- `json_response` of `hetzner_cloud.py`: the standardized response dict.
`data` and `error` are added only when truthy. -/
def json_response (ts : String) (success : Bool)
    (data : Option (List (String × JVal))) (error : Option String) : JVal :=
  .jobj ([("success", .jbool success), ("timestamp", .jstr ts)]
    ++ (if pyTruthyDict data then [("data", .jobj (data.getD []))] else [])
    ++ (if pyTruthyStr error then [("error", .jstr (error.getD ""))] else []))

/-- A Hetzner image of type snapshot, with the fields the scripts read.
`created_from` is the id of the source server when recorded. -/
structure HImage where
  id : Int
  description : String
  status : String
  created_from : Option Int
  created : Option String
  disk_size : Int
  image_size : Option Int
deriving DecidableEq, Repr

/-- A Hetzner server, with the fields the scripts read. -/
structure HServer where
  id : Int
  name : String
  status : String
  public_ipv4 : Option String
deriving DecidableEq, Repr

/-- The provider interactions used by the snapshot operations.  Each field
models one SDK call site; `.error e` models the call raising. -/
structure SnapshotEnv where
  get_server_by_id : Int → Except String (Option HServer)
  get_all_snapshots : Except String (List HImage)
  create_image : Int → String → Except String (HImage × Int)

/-- The loop body of `check_snapshot_in_progress`: first image whose
`created_from` is the target server and whose status is `creating`. -/
def findInProgress (server_id : Int) : List HImage → Option HImage
  | [] => none
  | img :: rest =>
    if img.created_from == some server_id && img.status == "creating" then some img
    else findInProgress server_id rest

/-- Result dict of `check_snapshot_in_progress`: either the in-progress
snapshot's fields, or `in_progress=False` (with the swallowed error, if
the check itself raised). -/
inductive CheckResult where
  | inProgress (snapshot_id : Int) (description status : String)
  | notInProgress (error : Option String)
deriving DecidableEq, Repr

/-- The `in_progress` field of the check result. -/
def CheckResult.in_progress : CheckResult → Bool
  | .inProgress _ _ _ => true
  | .notInProgress _ => false

/-- `check_snapshot_in_progress` of `hetzner_cloud.py`: list all snapshots
and scan for one of this server in status `creating`; any exception is
converted into an `in_progress=False` answer. -/
def check_snapshot_in_progress (env : SnapshotEnv) (server_id : Int) : CheckResult :=
  match env.get_all_snapshots with
  | .error e => .notInProgress (some e)
  | .ok images =>
    match findInProgress server_id images with
    | some img => .inProgress img.id img.description img.status
    | none => .notInProgress none

/-- `create_snapshot` of `hetzner_cloud.py`.  The second component counts
the `server.create_image` calls issued (0 or 1). -/
def create_snapshot (env : SnapshotEnv) (server_id : Int) (description ts : String) :
    JVal × Nat :=
  match env.get_server_by_id server_id with
  | .error e => (json_response ts false none (some e), 0)
  | .ok none => (json_response ts false none (some (server_not_found_message server_id)), 0)
  | .ok (some _server) =>
    match check_snapshot_in_progress env server_id with
    | .inProgress snap_id d st =>
      (json_response ts true (some [
        ("snapshot_id", .jnum snap_id),
        ("description", .jstr d),
        ("status", .jstr st),
        ("already_in_progress", .jbool true),
        ("message", .jstr (in_progress_message d))
      ]) none, 0)
    | .notInProgress _ =>
      match env.create_image server_id description with
      | .error e => (json_response ts false none (some e), 1)
      | .ok (image, action_id) =>
        (json_response ts true (some [
          ("snapshot_id", .jnum image.id),
          ("description", .jstr image.description),
          ("status", .jstr image.status),
          ("created", jOptStr image.created),
          ("disk_size", .jnum image.disk_size),
          ("image_size", jOptNum image.image_size),
          ("action_id", .jnum action_id),
          ("already_in_progress", .jbool false),
          ("message", .jstr "Snapshot creation initiated")
        ]) none, 1)

/-- One status poll of `wait_for_snapshot`: the `get_by_id` call either
raises, returns `None`, or returns the image. -/
inductive PollObs where
  | raised (e : String)
  | missing
  | found (img : HImage)
deriving DecidableEq, Repr

/-- The polling loop of `wait_for_snapshot`.  `poll k` is the provider's
answer to the k-th status query; in the model the elapsed time at the k-th
loop entry is `10 * k` seconds (one 10-second sleep per `creating` poll),
so the loop guard `(time.time() - start_time) < timeout` is `10 * k <
timeout`.  `fuel` bounds the recursion; `wait_for_snapshot` passes enough
fuel that it runs out only when the guard is already false, in which case
returning the timeout failure is exactly what the loop exit does.  The
second component counts the status queries issued. -/
def wait_go (poll : Nat → PollObs) (snapshot_id : Int) (timeout : Int) (ts : String) :
    Nat → Nat → JVal × Nat
  | 0, _k =>
    (json_response ts false none (some (timeout_message timeout)), 0)
  | fuel + 1, k =>
    if 10 * (k : Int) < timeout then
      match poll k with
      | .raised e => (json_response ts false none (some e), 1)
      | .missing =>
        (json_response ts false none (some (snapshot_not_found_message snapshot_id)), 1)
      | .found img =>
        if img.status == "available" then
          (json_response ts true (some [
            ("snapshot_id", .jnum img.id),
            ("description", .jstr img.description),
            ("status", .jstr "available"),
            ("disk_size", .jnum img.disk_size),
            ("image_size", jOptNum img.image_size),
            ("duration_seconds", .jnum (10 * (k : Int))),
            ("message", .jstr "Snapshot completed successfully")
          ]) none, 1)
        else if img.status == "creating" then
          let r := wait_go poll snapshot_id timeout ts fuel (k + 1)
          (r.1, r.2 + 1)
        else
          (json_response ts false none (some (unexpected_status_message img.status)), 1)
    else
      (json_response ts false none (some (timeout_message timeout)), 0)

/-- `wait_for_snapshot` of `hetzner_cloud.py`: poll until `available`,
unexpected status, or the timeout deadline. -/
def wait_for_snapshot (poll : Nat → PollObs) (snapshot_id : Int) (timeout : Int)
    (ts : String) : JVal × Nat :=
  wait_go poll snapshot_id timeout ts (timeout.toNat + 1) 0

/-- The per-image info dict built by `list_snapshots`. -/
def snapshot_info (img : HImage) : List (String × JVal) :=
  [("snapshot_id", .jnum img.id),
   ("description", .jstr img.description),
   ("status", .jstr img.status),
   ("created", jOptStr img.created),
   ("disk_size", .jnum img.disk_size),
   ("image_size", jOptNum img.image_size),
   ("created_from_id", jOptNum img.created_from)]

/-- Python truthiness of the optional server id (`None` and `0` are
falsy, so `if server_id and ...` skips them). -/
def pyTruthyId : Option Int → Bool
  | none => false
  | some n => !(n == 0)

/-- Strategy 1 of `list_snapshots`: `if server_id and img.created_from and
img.created_from.id == int(server_id)` — the guard tests Python truthiness
of `server_id`, so the falsy id `0` matches nothing. -/
def matches_server_id (server_id : Option Int) (img : HImage) : Bool :=
  match server_id with
  | some sid => !(sid == 0) && img.created_from == some sid
  | none => false

/-- Python `str.startswith`, modelled on the character sequence (the
builtin `String.startsWith` is not kernel-reducible). -/
def str_startswith (s pre : String) : Bool :=
  List.isPrefixOf pre.data s.data

/-- Strategy 2 of `list_snapshots`: `if server_name and
img.description.startswith(f"{server_name}-")` — the guard tests Python
truthiness of `server_name`, so the falsy empty name matches nothing. -/
def matches_hostname (server_name : Option String) (img : HImage) : Bool :=
  match server_name with
  | some name => !name.isEmpty && str_startswith img.description (name ++ "-")
  | none => false

/-- `list_snapshots` of `hetzner_cloud.py`: collect per-strategy match
lists in one pass, then pick by precedence (id match, hostname-dash
match, full account fallback) and report which strategy was used.  The
strategy guards test Python truthiness (`if server_id and ...`,
`elif server_name and ...`): `None`, the empty name and the id `0` are
falsy and behave as "no filter"; with every guard falsy the result is the
full account set tagged `all_project`, exactly as the source's loop-else
and fallback branches produce. -/
def list_snapshots (env : SnapshotEnv) (server_name : Option String)
    (server_id : Option Int) (ts : String) : JVal :=
  match env.get_all_snapshots with
  | .error e => json_response ts false none (some e)
  | .ok images =>
    let all_snapshots_for_project := images.map snapshot_info
    let snapshots_for_server := (images.filter (matches_server_id server_id)).map snapshot_info
    let hostname_matches := (images.filter (matches_hostname server_name)).map snapshot_info
    let snapshots :=
      if pyTruthyId server_id && !snapshots_for_server.isEmpty then snapshots_for_server
      else if pyTruthyStr server_name && !hostname_matches.isEmpty then hostname_matches
      else all_snapshots_for_project
    let filter_used :=
      if pyTruthyId server_id && !snapshots_for_server.isEmpty then "server_id"
      else if pyTruthyStr server_name && !hostname_matches.isEmpty then "hostname_prefix"
      else "all_project"
    json_response ts true (some [
      ("snapshots", .jarr (snapshots.map JVal.jobj)),
      ("count", .jnum snapshots.length),
      ("filter_used", .jstr filter_used)]) none

/-- The provider interactions used by `start_server`: the initial
`get_by_id`, the `power_on` + `wait_until_finished` pair, and the
refreshing `get_by_id` (whose `None` answer would surface as an
exception at the first attribute access, hence plain `Except`). -/
structure StartEnv where
  get_server_by_id : Int → Except String (Option HServer)
  power_on : Except String Unit
  refresh : Int → Except String HServer

/-- `start_server` of `hetzner_cloud.py`.  The second component counts the
`server.power_on()` calls issued (0 or 1). -/
def start_server (env : StartEnv) (server_id : Int) (ts : String) : JVal × Nat :=
  match env.get_server_by_id server_id with
  | .error e => (json_response ts false none (some e), 0)
  | .ok none => (json_response ts false none (some (server_not_found_message server_id)), 0)
  | .ok (some server) =>
    if server.status == "running" then
      (json_response ts true (some [
        ("server_id", .jnum server.id),
        ("name", .jstr server.name),
        ("status", .jstr "running"),
        ("message", .jstr "Server is already running")]) none, 0)
    else
      match env.power_on with
      | .error e => (json_response ts false none (some e), 1)
      | .ok _ =>
        match env.refresh server_id with
        | .error e => (json_response ts false none (some e), 1)
        | .ok server2 =>
          (json_response ts true (some [
            ("server_id", .jnum server2.id),
            ("name", .jstr server2.name),
            ("status", .jstr server2.status),
            ("public_ipv4", jOptStr server2.public_ipv4),
            ("message", .jstr "Server started successfully")]) none, 1)

end Hetzner

namespace Proxmox

/-- The `f"Invalid VM type: {vm_type}"` message. -/
def invalid_vm_type_message (vm_type : String) : String :=
  s!"Invalid VM type: {vm_type}"

/-- `json_response` of `proxmox_api.py`: like the Hetzner one, with an
additional truthiness-guarded `message` field. -/
def json_response (ts : String) (success : Bool)
    (data : Option (List (String × JVal))) (error : Option String)
    (message : Option String) : JVal :=
  .jobj ([("success", .jbool success), ("timestamp", .jstr ts)]
    ++ (if pyTruthyDict data then [("data", .jobj (data.getD []))] else [])
    ++ (if pyTruthyStr error then [("error", .jstr (error.getD ""))] else [])
    ++ (if pyTruthyStr message then [("message", .jstr (message.getD ""))] else []))

/-- The `status.current.get()` answer: a dict whose `status` key the
script reads. -/
structure VmStatus where
  status : String
deriving DecidableEq, Repr

/-- Provider interactions of `start_vm`: connection, the per-kind current
status query, the per-kind start post, and the per-kind re-check after
the 2-second sleep. -/
structure StartVmEnv where
  connect : Except String Unit
  qemu_current : Except String VmStatus
  lxc_current : Except String VmStatus
  qemu_start : Except String Unit
  lxc_start : Except String Unit
  qemu_current_after : Except String VmStatus
  lxc_current_after : Except String VmStatus

/-- Tail of `start_vm` after a start was posted: sleep 2 seconds, re-read
the status, and report `start initiated`. -/
def start_vm_finish (env : StartVmEnv) (node : String) (vmid : Int)
    (vm_type ts : String) : JVal × Nat :=
  match (if vm_type == "qemu" then env.qemu_current_after else env.lxc_current_after) with
  | .error e => (json_response ts false none (some e) none, 1)
  | .ok new_status =>
    (json_response ts true (some [
      ("vmid", .jnum vmid),
      ("node", .jstr node),
      ("type", .jstr vm_type),
      ("status", .jstr new_status.status)]) none
      (some (String.toUpper vm_type ++ " start initiated")), 1)

/-- `start_vm` of `proxmox_api.py`.  The second component counts the
`status.start.post()` calls issued (0 or 1). -/
def start_vm (env : StartVmEnv) (node : String) (vmid : Int) (vm_type ts : String) :
    JVal × Nat :=
  match env.connect with
  | .error e => (json_response ts false none (some e) none, 0)
  | .ok _ =>
    if vm_type == "qemu" then
      match env.qemu_current with
      | .error e => (json_response ts false none (some e) none, 0)
      | .ok current =>
        if current.status == "running" then
          (json_response ts true (some [("status", .jstr "running")]) none
            (some (String.toUpper vm_type ++ " is already running")), 0)
        else
          match env.qemu_start with
          | .error e => (json_response ts false none (some e) none, 1)
          | .ok _ => start_vm_finish env node vmid vm_type ts
    else if vm_type == "lxc" then
      match env.lxc_current with
      | .error e => (json_response ts false none (some e) none, 0)
      | .ok current =>
        if current.status == "running" then
          (json_response ts true (some [("status", .jstr "running")]) none
            (some (String.toUpper vm_type ++ " is already running")), 0)
        else
          match env.lxc_start with
          | .error e => (json_response ts false none (some e) none, 1)
          | .ok _ => start_vm_finish env node vmid vm_type ts
    else
      (json_response ts false none (some (invalid_vm_type_message vm_type)) none, 0)

/-- A Proxmox snapshot entry as returned by `snapshot.get()`; every field
is read with `.get(...)`, so each may be absent. -/
structure PSnap where
  name : Option String
  description : Option String
  snaptime : Option Int
  vmstate : Option Int
deriving DecidableEq, Repr

/-- Provider interactions of the Proxmox `list_snapshots`. -/
structure ListSnapshotsEnv where
  connect : Except String Unit
  qemu_snapshots : Except String (List PSnap)
  lxc_snapshots : Except String (List PSnap)

/-- The loop filter of `list_snapshots`: keep entries whose name is
neither `current` nor absent (`snap.get('name') not in ['current', None]`). -/
def keep_snapshot (snap : PSnap) : Bool :=
  !([some "current", (none : Option String)].contains snap.name)

/-- The per-snapshot dict built by `list_snapshots`. -/
def snapshot_entry (snap : PSnap) : JVal :=
  .jobj [("name", jOptStr snap.name),
         ("description", .jstr (snap.description.getD "")),
         ("snaptime", .jnum (snap.snaptime.getD 0)),
         ("vmstate", .jnum (snap.vmstate.getD 0))]

/-- Shared tail of `list_snapshots` once the per-kind `snapshot.get()`
call has been selected. -/
def list_snapshots_build (snaps : Except String (List PSnap)) (node : String)
    (vmid : Int) (vm_type ts : String) : JVal :=
  match snaps with
  | .error e => json_response ts false none (some e) none
  | .ok snapshots =>
    let snapshot_list := (snapshots.filter keep_snapshot).map snapshot_entry
    json_response ts true (some [
      ("vmid", .jnum vmid),
      ("node", .jstr node),
      ("type", .jstr vm_type),
      ("snapshots", .jarr snapshot_list),
      ("count", .jnum snapshot_list.length)]) none none

/-- `list_snapshots` of `proxmox_api.py`. -/
def list_snapshots (env : ListSnapshotsEnv) (node : String) (vmid : Int)
    (vm_type ts : String) : JVal :=
  match env.connect with
  | .error e => json_response ts false none (some e) none
  | .ok _ =>
    if vm_type == "qemu" then list_snapshots_build env.qemu_snapshots node vmid vm_type ts
    else if vm_type == "lxc" then list_snapshots_build env.lxc_snapshots node vmid vm_type ts
    else json_response ts false none (some (invalid_vm_type_message vm_type)) none

end Proxmox

namespace Hetzner

/-- The `success` field of a response is exactly the success flag. -/
theorem json_response_success_field (ts : String) (b : Bool)
    (d : Option (List (String × JVal))) (e : Option String) :
    (json_response ts b d e).getField "success" = some (.jbool b) := rfl

/-- Soundness of the in-progress scan: a hit is a member of the listed
images, belongs to the target server and is in status `creating`. -/
theorem findInProgress_eq_some {server_id : Int} {l : List HImage} {img : HImage}
    (h : findInProgress server_id l = some img) :
    img ∈ l ∧ img.created_from = some server_id ∧ img.status = "creating" := by
  induction l with
  | nil => simp [findInProgress] at h
  | cons a rest ih =>
    unfold findInProgress at h
    by_cases hc : (a.created_from == some server_id && a.status == "creating") = true
    · rw [if_pos hc] at h
      simp only [Option.some.injEq] at h
      subst h
      simp only [Bool.and_eq_true, beq_iff_eq] at hc
      exact ⟨List.mem_cons_self _ _, hc.1, hc.2⟩
    · rw [if_neg hc] at h
      obtain ⟨hm, h1, h2⟩ := ih h
      exact ⟨List.mem_cons_of_mem a hm, h1, h2⟩

/-- Completeness of the in-progress scan: when a matching image is listed,
the scan finds one. -/
theorem findInProgress_isSome_of_mem {server_id : Int} {l : List HImage} {img : HImage}
    (hmem : img ∈ l) (h1 : img.created_from = some server_id)
    (h2 : img.status = "creating") :
    ∃ i, findInProgress server_id l = some i := by
  induction l with
  | nil => cases hmem
  | cons a rest ih =>
    unfold findInProgress
    by_cases hc : (a.created_from == some server_id && a.status == "creating") = true
    · exact ⟨a, if_pos hc⟩
    · rw [if_neg hc]
      rcases List.mem_cons.mp hmem with rfl | hm
      · exact absurd (by simp [h1, h2]) hc
      · exact ih hm

/-- When no listed image of the server is in status `creating`, the scan
comes up empty. -/
theorem findInProgress_eq_none {server_id : Int} {l : List HImage}
    (h : ∀ img ∈ l, ¬(img.created_from = some server_id ∧ img.status = "creating")) :
    findInProgress server_id l = none := by
  induction l with
  | nil => rfl
  | cons a rest ih =>
    unfold findInProgress
    have ha : ¬((a.created_from == some server_id && a.status == "creating") = true) := by
      simp only [Bool.and_eq_true, beq_iff_eq]
      exact h a (List.mem_cons_self a rest)
    rw [if_neg ha]
    exact ih fun img hm => h img (List.mem_cons_of_mem a hm)

end Hetzner

/-- Claim C1: if the provider already holds a `creating` snapshot for the
target server, `create_snapshot` returns success tagged
`already_in_progress=true` carrying that existing snapshot's id and
description, and issues zero `create_image` calls — so the coordinator
never starts a second concurrent snapshot for a resource it can see one
for. -/
theorem create_snapshot_dedupes_in_progress
    (env : Hetzner.SnapshotEnv) (server_id : Int) (description ts : String)
    (server : Hetzner.HServer) (images : List Hetzner.HImage) (img : Hetzner.HImage)
    (hserver : env.get_server_by_id server_id = .ok (some server))
    (himages : env.get_all_snapshots = .ok images)
    (hmem : img ∈ images)
    (hfrom : img.created_from = some server_id)
    (hstatus : img.status = "creating") :
    ∃ i ∈ images, i.created_from = some server_id ∧ i.status = "creating" ∧
      Hetzner.create_snapshot env server_id description ts =
        (Hetzner.json_response ts true (some [
          ("snapshot_id", .jnum i.id),
          ("description", .jstr i.description),
          ("status", .jstr i.status),
          ("already_in_progress", .jbool true),
          ("message", .jstr (Hetzner.in_progress_message i.description))
        ]) none, 0) := by
  obtain ⟨i, hfind⟩ := Hetzner.findInProgress_isSome_of_mem hmem hfrom hstatus
  obtain ⟨him, h1, h2⟩ := Hetzner.findInProgress_eq_some hfind
  refine ⟨i, him, h1, h2, ?_⟩
  simp [Hetzner.create_snapshot, Hetzner.check_snapshot_in_progress, hserver, himages, hfind]

/-- Witness for C1 at a concrete environment holding one `creating`
snapshot for server 3. -/
theorem create_snapshot_dedupes_in_progress_witness :
    ∃ i ∈ [Hetzner.HImage.mk 8 "web-1-backup" "creating" (some 3) none 20 none],
      i.created_from = some 3 ∧ i.status = "creating" ∧
      Hetzner.create_snapshot
        ⟨fun _ => .ok (some ⟨3, "web-1", "running", none⟩),
         .ok [Hetzner.HImage.mk 8 "web-1-backup" "creating" (some 3) none 20 none],
         fun _ _ => .ok (⟨9, "fresh", "creating", some 3, none, 20, none⟩, 77)⟩
        3 "desc" "T" =
        (Hetzner.json_response "T" true (some [
          ("snapshot_id", .jnum i.id),
          ("description", .jstr i.description),
          ("status", .jstr i.status),
          ("already_in_progress", .jbool true),
          ("message", .jstr (Hetzner.in_progress_message i.description))
        ]) none, 0) :=
  create_snapshot_dedupes_in_progress _ 3 "desc" "T" _ _
    (Hetzner.HImage.mk 8 "web-1-backup" "creating" (some 3) none 20 none)
    rfl rfl (by decide) rfl rfl

/-- Claim C2: when the provider holds no `creating` snapshot for the
target server, `create_snapshot` issues exactly one `create_image` call
and returns success tagged `already_in_progress=false` carrying the new
snapshot's id. -/
theorem create_snapshot_fresh_creates_once
    (env : Hetzner.SnapshotEnv) (server_id : Int) (description ts : String)
    (server : Hetzner.HServer) (images : List Hetzner.HImage)
    (image : Hetzner.HImage) (action_id : Int)
    (hserver : env.get_server_by_id server_id = .ok (some server))
    (himages : env.get_all_snapshots = .ok images)
    (hnone : ∀ img ∈ images,
      ¬(img.created_from = some server_id ∧ img.status = "creating"))
    (hcreate : env.create_image server_id description = .ok (image, action_id)) :
    Hetzner.create_snapshot env server_id description ts =
      (Hetzner.json_response ts true (some [
        ("snapshot_id", .jnum image.id),
        ("description", .jstr image.description),
        ("status", .jstr image.status),
        ("created", jOptStr image.created),
        ("disk_size", .jnum image.disk_size),
        ("image_size", jOptNum image.image_size),
        ("action_id", .jnum action_id),
        ("already_in_progress", .jbool false),
        ("message", .jstr "Snapshot creation initiated")
      ]) none, 1) := by
  have hfind := Hetzner.findInProgress_eq_none hnone
  simp [Hetzner.create_snapshot, Hetzner.check_snapshot_in_progress,
    hserver, himages, hfind, hcreate]

/-- Witness for C2: server 3 exists, the account holds one snapshot that is
`creating` but for a different server, and one `available` one for server 3,
so creation proceeds. -/
theorem create_snapshot_fresh_creates_once_witness :
    Hetzner.create_snapshot
      ⟨fun _ => .ok (some ⟨3, "web-1", "running", none⟩),
       .ok [⟨5, "other", "creating", some 4, none, 20, none⟩,
            ⟨6, "done", "available", some 3, none, 20, some 4⟩],
       fun _ _ => .ok (⟨9, "fresh", "creating", some 3, some "2024-01-01", 20, none⟩, 77)⟩
      3 "fresh" "T" =
      (Hetzner.json_response "T" true (some [
        ("snapshot_id", .jnum 9),
        ("description", .jstr "fresh"),
        ("status", .jstr "creating"),
        ("created", jOptStr (some "2024-01-01")),
        ("disk_size", .jnum 20),
        ("image_size", jOptNum none),
        ("action_id", .jnum 77),
        ("already_in_progress", .jbool false),
        ("message", .jstr "Snapshot creation initiated")
      ]) none, 1) :=
  create_snapshot_fresh_creates_once _ 3 "fresh" "T" _ _
    ⟨9, "fresh", "creating", some 3, some "2024-01-01", 20, none⟩ 77
    rfl rfl (by decide) rfl

/-- Claim C5: if the in-progress existence check itself raises (here: the
image listing fails with a transport error), the exception is swallowed
into an `in_progress=False` answer and `create_snapshot` still proceeds to
issue the one `create_image` call rather than failing. -/
theorem create_snapshot_check_failure_proceeds
    (env : Hetzner.SnapshotEnv) (server_id : Int) (description ts : String)
    (server : Hetzner.HServer) (e : String)
    (image : Hetzner.HImage) (action_id : Int)
    (hserver : env.get_server_by_id server_id = .ok (some server))
    (herr : env.get_all_snapshots = .error e)
    (hcreate : env.create_image server_id description = .ok (image, action_id)) :
    Hetzner.check_snapshot_in_progress env server_id = .notInProgress (some e) ∧
    Hetzner.create_snapshot env server_id description ts =
      (Hetzner.json_response ts true (some [
        ("snapshot_id", .jnum image.id),
        ("description", .jstr image.description),
        ("status", .jstr image.status),
        ("created", jOptStr image.created),
        ("disk_size", .jnum image.disk_size),
        ("image_size", jOptNum image.image_size),
        ("action_id", .jnum action_id),
        ("already_in_progress", .jbool false),
        ("message", .jstr "Snapshot creation initiated")
      ]) none, 1) := by
  constructor
  · simp [Hetzner.check_snapshot_in_progress, herr]
  · simp [Hetzner.create_snapshot, Hetzner.check_snapshot_in_progress,
      hserver, herr, hcreate]

/-- Witness for C5: the listing call raises a transport error, creation
still happens. -/
theorem create_snapshot_check_failure_proceeds_witness :
    Hetzner.check_snapshot_in_progress
      ⟨fun _ => .ok (some ⟨3, "web-1", "running", none⟩),
       .error "connection reset",
       fun _ _ => .ok (⟨9, "fresh", "creating", some 3, none, 20, none⟩, 77)⟩ 3 =
      .notInProgress (some "connection reset") ∧
    Hetzner.create_snapshot
      ⟨fun _ => .ok (some ⟨3, "web-1", "running", none⟩),
       .error "connection reset",
       fun _ _ => .ok (⟨9, "fresh", "creating", some 3, none, 20, none⟩, 77)⟩
      3 "fresh" "T" =
      (Hetzner.json_response "T" true (some [
        ("snapshot_id", .jnum 9),
        ("description", .jstr "fresh"),
        ("status", .jstr "creating"),
        ("created", jOptStr none),
        ("disk_size", .jnum 20),
        ("image_size", jOptNum none),
        ("action_id", .jnum 77),
        ("already_in_progress", .jbool false),
        ("message", .jstr "Snapshot creation initiated")
      ]) none, 1) :=
  create_snapshot_check_failure_proceeds _ 3 "fresh" "T"
    ⟨3, "web-1", "running", none⟩ "connection reset"
    ⟨9, "fresh", "creating", some 3, none, 20, none⟩ 77 rfl rfl rfl

/-- Claim C8: in both scripts, the serialized response omits the `data` key
exactly when the data argument is falsy (absent or an empty dict) and the
`error` key exactly when the error argument is falsy (absent or the empty
string); a success response built with an empty data dict consists of
`success` and `timestamp` alone. -/
theorem json_response_optional_keys (ts : String) (b : Bool)
    (d : Option (List (String × JVal))) (e m : Option String) :
    ((Hetzner.json_response ts b d e).hasKey "data" = pyTruthyDict d) ∧
    ((Hetzner.json_response ts b d e).hasKey "error" = pyTruthyStr e) ∧
    (Hetzner.json_response ts b (some []) none =
      .jobj [("success", .jbool b), ("timestamp", .jstr ts)]) ∧
    ((Proxmox.json_response ts b d e m).hasKey "data" = pyTruthyDict d) ∧
    ((Proxmox.json_response ts b d e m).hasKey "error" = pyTruthyStr e) ∧
    (Proxmox.json_response ts b (some []) none none =
      .jobj [("success", .jbool b), ("timestamp", .jstr ts)]) := by
  refine ⟨?_, ?_, rfl, ?_, ?_, rfl⟩ <;>
  · simp only [Hetzner.json_response, Proxmox.json_response, JVal.hasKey, JVal.getField]
    cases pyTruthyDict d <;> cases pyTruthyStr e <;> cases pyTruthyStr m <;>
      simp [List.lookup]

/-- Claim C6: powering on an already-running resource is a no-op success on
both providers and both Proxmox resource kinds: `start_server` returns the
`already running` success and issues zero `power_on` calls, and `start_vm`
for `qemu` and for `lxc` returns the `already running` success and issues
zero `status.start.post()` calls. -/
theorem power_on_running_is_noop
    (henv : Hetzner.StartEnv) (server_id : Int) (server : Hetzner.HServer)
    (penv : Proxmox.StartVmEnv) (node : String) (vmid : Int) (ts : String)
    (hget : henv.get_server_by_id server_id = .ok (some server))
    (hrun : server.status = "running")
    (hconn : penv.connect = .ok ())
    (hq : penv.qemu_current = .ok ⟨"running"⟩)
    (hl : penv.lxc_current = .ok ⟨"running"⟩) :
    Hetzner.start_server henv server_id ts =
      (Hetzner.json_response ts true (some [
        ("server_id", .jnum server.id),
        ("name", .jstr server.name),
        ("status", .jstr "running"),
        ("message", .jstr "Server is already running")]) none, 0) ∧
    Proxmox.start_vm penv node vmid "qemu" ts =
      (Proxmox.json_response ts true (some [("status", .jstr "running")]) none
        (some (String.toUpper "qemu" ++ " is already running")), 0) ∧
    Proxmox.start_vm penv node vmid "lxc" ts =
      (Proxmox.json_response ts true (some [("status", .jstr "running")]) none
        (some (String.toUpper "lxc" ++ " is already running")), 0) := by
  refine ⟨?_, ?_, ?_⟩
  · simp [Hetzner.start_server, hget, hrun]
  · simp [Proxmox.start_vm, hconn, hq]
  · simp [Proxmox.start_vm, hconn, hl]

/-- Witness for C6 at concrete environments whose resources report
`running`. -/
theorem power_on_running_is_noop_witness :
    Hetzner.start_server
      ⟨fun _ => .ok (some ⟨3, "web-1", "running", some "1.2.3.4"⟩),
       .ok (), fun _ => .ok ⟨3, "web-1", "running", some "1.2.3.4"⟩⟩ 3 "T" =
      (Hetzner.json_response "T" true (some [
        ("server_id", .jnum 3),
        ("name", .jstr "web-1"),
        ("status", .jstr "running"),
        ("message", .jstr "Server is already running")]) none, 0) ∧
    Proxmox.start_vm
      ⟨.ok (), .ok ⟨"running"⟩, .ok ⟨"running"⟩, .ok (), .ok (),
       .ok ⟨"running"⟩, .ok ⟨"running"⟩⟩ "pve" 101 "qemu" "T" =
      (Proxmox.json_response "T" true (some [("status", .jstr "running")]) none
        (some (String.toUpper "qemu" ++ " is already running")), 0) ∧
    Proxmox.start_vm
      ⟨.ok (), .ok ⟨"running"⟩, .ok ⟨"running"⟩, .ok (), .ok (),
       .ok ⟨"running"⟩, .ok ⟨"running"⟩⟩ "pve" 101 "lxc" "T" =
      (Proxmox.json_response "T" true (some [("status", .jstr "running")]) none
        (some (String.toUpper "lxc" ++ " is already running")), 0) :=
  power_on_running_is_noop _ 3 ⟨3, "web-1", "running", some "1.2.3.4"⟩
    _ "pve" 101 "T" rfl rfl rfl rfl rfl

namespace Hetzner

/-- A falsy `server_id` (`None` or `0`) matches no image, because the
source guards strategy 1 with `if server_id and ...`. -/
theorem filter_matches_server_id_falsy {server_id : Option Int}
    (h : pyTruthyId server_id = false) (images : List HImage) :
    images.filter (matches_server_id server_id) = [] := by
  rw [List.filter_eq_nil_iff]
  intro img _
  cases server_id with
  | none => simp [matches_server_id]
  | some sid =>
    simp only [pyTruthyId, Bool.not_eq_false] at h
    simp [matches_server_id, h]

/-- A falsy `server_name` (`None` or the empty string) matches no image,
because the source guards strategy 2 with `if server_name and ...`. -/
theorem filter_matches_hostname_falsy {server_name : Option String}
    (h : pyTruthyStr server_name = false) (images : List HImage) :
    images.filter (matches_hostname server_name) = [] := by
  rw [List.filter_eq_nil_iff]
  intro img _
  cases server_name with
  | none => simp [matches_hostname]
  | some name =>
    simp only [pyTruthyStr, Bool.not_eq_false] at h
    simp [matches_hostname, h]

end Hetzner

/-- Claim C4: `list_snapshots` picks the result set by strict precedence —
snapshots matching the recorded source-server id if any, else snapshots
whose description starts with `<serverName>-` if any, else the full
account set — and `filter_used` names exactly the strategy that produced
the set.  The strategies are keyed on Python truthiness of the filter
arguments, as in the source: a `None`, empty-string or `0` filter argument
is no filter, and with no truthy strategy applicable the full account set
is returned tagged `all_project`. -/
theorem list_snapshots_precedence
    (env : Hetzner.SnapshotEnv) (server_name : Option String) (server_id : Option Int)
    (ts : String) (images : List Hetzner.HImage)
    (himages : env.get_all_snapshots = .ok images) :
    (Hetzner.pyTruthyId server_id = true →
     images.filter (Hetzner.matches_server_id server_id) ≠ [] →
      Hetzner.list_snapshots env server_name server_id ts =
        Hetzner.json_response ts true (some [
          ("snapshots", .jarr (((images.filter (Hetzner.matches_server_id server_id)).map
            Hetzner.snapshot_info).map JVal.jobj)),
          ("count", .jnum (((images.filter (Hetzner.matches_server_id server_id)).map
            Hetzner.snapshot_info).length : Int)),
          ("filter_used", .jstr "server_id")]) none) ∧
    ((Hetzner.pyTruthyId server_id = true →
      images.filter (Hetzner.matches_server_id server_id) = []) →
     pyTruthyStr server_name = true →
     images.filter (Hetzner.matches_hostname server_name) ≠ [] →
      Hetzner.list_snapshots env server_name server_id ts =
        Hetzner.json_response ts true (some [
          ("snapshots", .jarr (((images.filter (Hetzner.matches_hostname server_name)).map
            Hetzner.snapshot_info).map JVal.jobj)),
          ("count", .jnum (((images.filter (Hetzner.matches_hostname server_name)).map
            Hetzner.snapshot_info).length : Int)),
          ("filter_used", .jstr "hostname_prefix")]) none) ∧
    ((Hetzner.pyTruthyId server_id = true →
      images.filter (Hetzner.matches_server_id server_id) = []) →
     (pyTruthyStr server_name = true →
      images.filter (Hetzner.matches_hostname server_name) = []) →
      Hetzner.list_snapshots env server_name server_id ts =
        Hetzner.json_response ts true (some [
          ("snapshots", .jarr ((images.map Hetzner.snapshot_info).map JVal.jobj)),
          ("count", .jnum ((images.map Hetzner.snapshot_info).length : Int)),
          ("filter_used", .jstr "all_project")]) none) := by
  refine ⟨?_, ?_, ?_⟩
  · intro hid hne
    simp [Hetzner.list_snapshots, himages, hid, hne]
  · intro hidempty hname hne
    have hidnil : images.filter (Hetzner.matches_server_id server_id) = [] := by
      cases hid : Hetzner.pyTruthyId server_id
      · exact Hetzner.filter_matches_server_id_falsy hid images
      · exact hidempty hid
    simp [Hetzner.list_snapshots, himages, hidnil, hname, hne]
  · intro hidempty hnameempty
    have hidnil : images.filter (Hetzner.matches_server_id server_id) = [] := by
      cases hid : Hetzner.pyTruthyId server_id
      · exact Hetzner.filter_matches_server_id_falsy hid images
      · exact hidempty hid
    have hnamenil : images.filter (Hetzner.matches_hostname server_name) = [] := by
      cases hnm : pyTruthyStr server_name
      · exact Hetzner.filter_matches_hostname_falsy hnm images
      · exact hnameempty hnm
    simp [Hetzner.list_snapshots, himages, hidnil, hnamenil]

/-- Witness for C4, exercising all three strategies and a falsy filter: an
id filter that matches, a hostname filter that matches, an id filter that
matches nothing and falls back to the whole account set, and the empty
server name, which the source treats as no filter and answers with the
whole account set tagged `all_project`. -/
theorem list_snapshots_precedence_witness :
    Hetzner.list_snapshots
      ⟨fun _ => .ok none,
       .ok [⟨1, "web-1-snap", "available", some 3, none, 20, some 5⟩,
            ⟨2, "old", "available", none, none, 20, none⟩],
       fun _ _ => .error "x"⟩ none (some 3) "T" =
      Hetzner.json_response "T" true (some [
        ("snapshots", .jarr ((([⟨1, "web-1-snap", "available", some 3, none, 20, some 5⟩,
            ⟨2, "old", "available", none, none, 20, none⟩].filter
              (Hetzner.matches_server_id (some 3))).map
            Hetzner.snapshot_info).map JVal.jobj)),
        ("count", .jnum ((([(⟨1, "web-1-snap", "available", some 3, none, 20, some 5⟩ :
              Hetzner.HImage),
            ⟨2, "old", "available", none, none, 20, none⟩].filter
              (Hetzner.matches_server_id (some 3))).map
            Hetzner.snapshot_info).length : Int)),
        ("filter_used", .jstr "server_id")]) none ∧
    Hetzner.list_snapshots
      ⟨fun _ => .ok none,
       .ok [⟨1, "web-1-snap", "available", some 3, none, 20, some 5⟩,
            ⟨2, "old", "available", none, none, 20, none⟩],
       fun _ _ => .error "x"⟩ (some "web-1") none "T" =
      Hetzner.json_response "T" true (some [
        ("snapshots", .jarr ((([⟨1, "web-1-snap", "available", some 3, none, 20, some 5⟩,
            ⟨2, "old", "available", none, none, 20, none⟩].filter
              (Hetzner.matches_hostname (some "web-1"))).map
            Hetzner.snapshot_info).map JVal.jobj)),
        ("count", .jnum ((([(⟨1, "web-1-snap", "available", some 3, none, 20, some 5⟩ :
              Hetzner.HImage),
            ⟨2, "old", "available", none, none, 20, none⟩].filter
              (Hetzner.matches_hostname (some "web-1"))).map
            Hetzner.snapshot_info).length : Int)),
        ("filter_used", .jstr "hostname_prefix")]) none ∧
    Hetzner.list_snapshots
      ⟨fun _ => .ok none,
       .ok [⟨2, "old", "available", none, none, 20, none⟩],
       fun _ _ => .error "x"⟩ none (some 3) "T" =
      Hetzner.json_response "T" true (some [
        ("snapshots", .jarr (([(⟨2, "old", "available", none, none, 20, none⟩ :
            Hetzner.HImage)].map Hetzner.snapshot_info).map JVal.jobj)),
        ("count", .jnum (([(⟨2, "old", "available", none, none, 20, none⟩ :
            Hetzner.HImage)].map Hetzner.snapshot_info).length : Int)),
        ("filter_used", .jstr "all_project")]) none ∧
    Hetzner.list_snapshots
      ⟨fun _ => .ok none,
       .ok [⟨1, "-foo", "available", some 3, none, 20, some 5⟩,
            ⟨2, "bar", "available", none, none, 20, none⟩],
       fun _ _ => .error "x"⟩ (some "") none "T" =
      Hetzner.json_response "T" true (some [
        ("snapshots", .jarr (([(⟨1, "-foo", "available", some 3, none, 20, some 5⟩ :
            Hetzner.HImage),
          ⟨2, "bar", "available", none, none, 20, none⟩].map
            Hetzner.snapshot_info).map JVal.jobj)),
        ("count", .jnum (([(⟨1, "-foo", "available", some 3, none, 20, some 5⟩ :
            Hetzner.HImage),
          ⟨2, "bar", "available", none, none, 20, none⟩].map
            Hetzner.snapshot_info).length : Int)),
        ("filter_used", .jstr "all_project")]) none :=
  ⟨(list_snapshots_precedence _ none (some 3) "T" _ rfl).1 (by decide) (by decide),
   (list_snapshots_precedence _ (some "web-1") none "T" _ rfl).2.1
     (by decide) (by decide) (by decide),
   (list_snapshots_precedence _ none (some 3) "T" _ rfl).2.2
     (by decide) (by decide),
   (list_snapshots_precedence _ (some "") none "T" _ rfl).2.2
     (by decide) (by decide)⟩

namespace Hetzner

/-- If every poll reports `creating`, the loop runs to the deadline and
returns the timeout failure (this holds for any fuel, because both loop
exits return the timeout response). -/
theorem wait_go_all_creating (poll : Nat → PollObs) (sid timeout : Int) (ts : String)
    (h : ∀ j, ∃ img, poll j = .found img ∧ img.status = "creating") :
    ∀ fuel k, (wait_go poll sid timeout ts fuel k).1 =
      json_response ts false none (some (timeout_message timeout)) := by
  intro fuel
  induction fuel with
  | zero => intro k; rfl
  | succ fuel ih =>
    intro k
    obtain ⟨img, hp, hs⟩ := h k
    by_cases hc : 10 * (k : Int) < timeout
    · simp [wait_go, hc, hp, hs, ih]
    · simp [wait_go, hc]

/-- Every outcome of the polling loop is either a failure response or the
success response justified by an `available` status polled before the
deadline. -/
theorem wait_go_success_only_if_available (poll : Nat → PollObs) (sid timeout : Int)
    (ts : String) :
    ∀ fuel k, (∃ msg, (wait_go poll sid timeout ts fuel k).1 =
        json_response ts false none (some msg)) ∨
      (∃ j img, k ≤ j ∧ 10 * (j : Int) < timeout ∧ poll j = .found img ∧
        img.status = "available" ∧
        (wait_go poll sid timeout ts fuel k).1 = json_response ts true (some [
          ("snapshot_id", .jnum img.id),
          ("description", .jstr img.description),
          ("status", .jstr "available"),
          ("disk_size", .jnum img.disk_size),
          ("image_size", jOptNum img.image_size),
          ("duration_seconds", .jnum (10 * (j : Int))),
          ("message", .jstr "Snapshot completed successfully")
        ]) none) := by
  intro fuel
  induction fuel with
  | zero => intro k; exact .inl ⟨timeout_message timeout, rfl⟩
  | succ fuel ih =>
    intro k
    by_cases hc : 10 * (k : Int) < timeout
    · cases hpoll : poll k with
      | raised e => exact .inl ⟨e, by simp [wait_go, hc, hpoll]⟩
      | missing => exact .inl ⟨snapshot_not_found_message sid, by simp [wait_go, hc, hpoll]⟩
      | found img =>
        by_cases ha : img.status = "available"
        · exact .inr ⟨k, img, le_refl k, hc, hpoll, ha, by simp [wait_go, hc, hpoll, ha]⟩
        · have ha2 : (img.status == "available") = false := beq_eq_false_iff_ne.mpr ha
          by_cases hcr : img.status = "creating"
          · have hstep : (wait_go poll sid timeout ts (fuel + 1) k).1 =
                (wait_go poll sid timeout ts fuel (k + 1)).1 := by
              simp [wait_go, hc, hpoll, ha2, hcr]
            rw [hstep]
            rcases ih (k + 1) with ⟨msg, hm⟩ | ⟨j, img2, hkj, hjc, hjp, hja, hje⟩
            · exact .inl ⟨msg, hm⟩
            · exact .inr ⟨j, img2, Nat.le_trans (Nat.le_succ k) hkj, hjc, hjp, hja, hje⟩
          · have hcr2 : (img.status == "creating") = false := beq_eq_false_iff_ne.mpr hcr
            exact .inl ⟨unexpected_status_message img.status,
              by simp [wait_go, hc, hpoll, ha2, hcr2]⟩
    · exact .inl ⟨timeout_message timeout, by simp [wait_go, hc]⟩

/-- If the first `m` polls report `creating` and the poll at index `m`
reports a status that is neither `creating` nor `available`, still before
the deadline and within fuel, the loop fails naming that status. -/
theorem wait_go_unexpected (poll : Nat → PollObs) (sid timeout : Int) (ts : String) :
    ∀ m fuel k img, m < fuel →
      (∀ j, j < m → ∃ im, poll (k + j) = .found im ∧ im.status = "creating") →
      poll (k + m) = .found img → img.status ≠ "available" → img.status ≠ "creating" →
      10 * ((k + m : Nat) : Int) < timeout →
      (wait_go poll sid timeout ts fuel k).1 =
        json_response ts false none (some (unexpected_status_message img.status)) := by
  intro m
  induction m with
  | zero =>
    intro fuel k img hfuel hcreating hpoll ha hcr hcond
    obtain ⟨f, rfl⟩ : ∃ f, fuel = f + 1 := ⟨fuel - 1, by omega⟩
    rw [Nat.add_zero] at hpoll hcond
    have ha2 : (img.status == "available") = false := beq_eq_false_iff_ne.mpr ha
    have hcr2 : (img.status == "creating") = false := beq_eq_false_iff_ne.mpr hcr
    simp [wait_go, hcond, hpoll, ha2, hcr2]
  | succ m ih =>
    intro fuel k img hfuel hcreating hpoll ha hcr hcond
    obtain ⟨f, rfl⟩ : ∃ f, fuel = f + 1 := ⟨fuel - 1, by omega⟩
    have hc : 10 * (k : Int) < timeout := by push_cast at hcond ⊢; omega
    obtain ⟨im0, hp0, hs0⟩ := hcreating 0 (Nat.succ_pos m)
    rw [Nat.add_zero] at hp0
    have hstep : (wait_go poll sid timeout ts (f + 1) k).1 =
        (wait_go poll sid timeout ts f (k + 1)).1 := by
      simp [wait_go, hc, hp0, hs0]
    rw [hstep]
    apply ih f (k + 1) img (by omega) ?_ ?_ ha hcr ?_
    · intro j hj
      have h2 := hcreating (j + 1) (by omega)
      rwa [show k + (j + 1) = k + 1 + j by omega] at h2
    · rwa [show k + 1 + m = k + (m + 1) by omega]
    · rwa [show ((k + 1 + m : Nat) : Int) = ((k + (m + 1) : Nat) : Int) by push_cast; omega]

end Hetzner

/-- Claim C3: `wait_for_snapshot` returns a success result only when some
poll before the deadline reported status `available` (and the success then
carries the size metrics and the elapsed duration); a polled status that is
neither `creating` nor `available` produces a failure naming that status;
and a status that stays `creating` forever produces the timeout failure.
In particular no non-`available` terminal state ever yields success. -/
theorem wait_for_snapshot_success_iff_available
    (poll : Nat → Hetzner.PollObs) (sid timeout : Int) (ts : String) :
    ((∃ msg, (Hetzner.wait_for_snapshot poll sid timeout ts).1 =
        Hetzner.json_response ts false none (some msg) ∧
        (Hetzner.wait_for_snapshot poll sid timeout ts).1.getField "success" =
          some (.jbool false)) ∨
      (∃ (j : Nat) (img : Hetzner.HImage), 10 * (j : Int) < timeout ∧
        poll j = .found img ∧ img.status = "available" ∧
        (Hetzner.wait_for_snapshot poll sid timeout ts).1 =
          Hetzner.json_response ts true (some [
            ("snapshot_id", .jnum img.id),
            ("description", .jstr img.description),
            ("status", .jstr "available"),
            ("disk_size", .jnum img.disk_size),
            ("image_size", jOptNum img.image_size),
            ("duration_seconds", .jnum (10 * (j : Int))),
            ("message", .jstr "Snapshot completed successfully")
          ]) none)) ∧
    ((∀ j, ∃ img, poll j = .found img ∧ img.status = "creating") →
      (Hetzner.wait_for_snapshot poll sid timeout ts).1 =
        Hetzner.json_response ts false none (some (Hetzner.timeout_message timeout))) ∧
    (∀ m img, (∀ j, j < m → ∃ im, poll j = .found im ∧ im.status = "creating") →
      poll m = .found img → img.status ≠ "available" → img.status ≠ "creating" →
      10 * (m : Int) < timeout →
      (Hetzner.wait_for_snapshot poll sid timeout ts).1 =
        Hetzner.json_response ts false none
          (some (Hetzner.unexpected_status_message img.status))) := by
  refine ⟨?_, ?_, ?_⟩
  · rcases Hetzner.wait_go_success_only_if_available poll sid timeout ts
        (timeout.toNat + 1) 0 with ⟨msg, hm⟩ | ⟨j, img, _, hjc, hjp, hja, hje⟩
    · refine .inl ⟨msg, hm, ?_⟩
      rw [show (Hetzner.wait_for_snapshot poll sid timeout ts).1 =
        Hetzner.json_response ts false none (some msg) from hm]
      rfl
    · exact .inr ⟨j, img, hjc, hjp, hja, hje⟩
  · intro h
    exact Hetzner.wait_go_all_creating poll sid timeout ts h (timeout.toNat + 1) 0
  · intro m img hcreating hpoll ha hcr hcond
    have hm : m < timeout.toNat + 1 := by omega
    have h0 : ∀ j, j < m → ∃ im, poll (0 + j) = .found im ∧ im.status = "creating" := by
      intro j hj
      simpa using hcreating j hj
    have := Hetzner.wait_go_unexpected poll sid timeout ts m (timeout.toNat + 1) 0 img
      hm h0 (by simpa using hpoll) ha hcr (by simpa using hcond)
    exact this

/-- Witness for C3: a snapshot that stays `creating` forever times out, and
one that reports `failed` fails naming that status. -/
theorem wait_for_snapshot_success_iff_available_witness :
    (Hetzner.wait_for_snapshot
      (fun _ => .found ⟨9, "d", "creating", some 3, none, 20, none⟩) 9 25 "T").1 =
      Hetzner.json_response "T" false none (some (Hetzner.timeout_message 25)) ∧
    (Hetzner.wait_for_snapshot
      (fun _ => .found ⟨9, "d", "failed", some 3, none, 20, none⟩) 9 25 "T").1 =
      Hetzner.json_response "T" false none (some (Hetzner.unexpected_status_message "failed")) :=
  ⟨(wait_for_snapshot_success_iff_available
      (fun _ => .found ⟨9, "d", "creating", some 3, none, 20, none⟩) 9 25 "T").2.1
      (fun _ => ⟨⟨9, "d", "creating", some 3, none, 20, none⟩, rfl, rfl⟩),
   (wait_for_snapshot_success_iff_available
      (fun _ => .found ⟨9, "d", "failed", some 3, none, 20, none⟩) 9 25 "T").2.2
      0 ⟨9, "d", "failed", some 3, none, 20, none⟩
      (fun j hj => absurd hj (Nat.not_lt_zero j)) rfl (by decide) (by decide) (by decide)⟩

/-- Claim C9: with a timeout that is zero or negative, the deadline check
precedes the first poll, so `wait_for_snapshot` returns the timeout
failure having issued zero status queries — even if the snapshot is
already `available`. -/
theorem wait_for_snapshot_nonpositive_timeout
    (poll : Nat → Hetzner.PollObs) (sid timeout : Int) (ts : String)
    (h : timeout ≤ 0) :
    Hetzner.wait_for_snapshot poll sid timeout ts =
      (Hetzner.json_response ts false none (some (Hetzner.timeout_message timeout)), 0) := by
  have hc : ¬((0 : Int) < timeout) := by omega
  simp [Hetzner.wait_for_snapshot, Hetzner.wait_go, hc]

/-- Witness for C9: timeout 0 with an already-`available` snapshot still
returns the timeout failure and polls zero times. -/
theorem wait_for_snapshot_nonpositive_timeout_witness :
    Hetzner.wait_for_snapshot
      (fun _ => .found ⟨9, "d", "available", some 3, none, 20, some 4⟩) 9 0 "T" =
      (Hetzner.json_response "T" false none (some (Hetzner.timeout_message 0)), 0) :=
  wait_for_snapshot_nonpositive_timeout _ 9 0 "T" (by decide)

/-- Claim C10: for both resource kinds, the Proxmox `list_snapshots`
response contains only entries whose name is present and is not the
`current` pseudo-snapshot, and its `count` equals the length of that
filtered list. -/
theorem proxmox_list_snapshots_filters_current
    (env : Proxmox.ListSnapshotsEnv) (node : String) (vmid : Int) (ts : String)
    (qsnaps lsnaps : List Proxmox.PSnap)
    (hconn : env.connect = .ok ())
    (hq : env.qemu_snapshots = .ok qsnaps)
    (hl : env.lxc_snapshots = .ok lsnaps) :
    (Proxmox.list_snapshots env node vmid "qemu" ts =
      Proxmox.json_response ts true (some [
        ("vmid", .jnum vmid),
        ("node", .jstr node),
        ("type", .jstr "qemu"),
        ("snapshots", .jarr ((qsnaps.filter Proxmox.keep_snapshot).map
          Proxmox.snapshot_entry)),
        ("count", .jnum (((qsnaps.filter Proxmox.keep_snapshot).map
          Proxmox.snapshot_entry).length : Int))]) none none) ∧
    (Proxmox.list_snapshots env node vmid "lxc" ts =
      Proxmox.json_response ts true (some [
        ("vmid", .jnum vmid),
        ("node", .jstr node),
        ("type", .jstr "lxc"),
        ("snapshots", .jarr ((lsnaps.filter Proxmox.keep_snapshot).map
          Proxmox.snapshot_entry)),
        ("count", .jnum (((lsnaps.filter Proxmox.keep_snapshot).map
          Proxmox.snapshot_entry).length : Int))]) none none) ∧
    (∀ s ∈ qsnaps.filter Proxmox.keep_snapshot, s.name ≠ some "current" ∧ s.name ≠ none) ∧
    (∀ s ∈ lsnaps.filter Proxmox.keep_snapshot, s.name ≠ some "current" ∧ s.name ≠ none) := by
  refine ⟨?_, ?_, ?_, ?_⟩
  · simp [Proxmox.list_snapshots, Proxmox.list_snapshots_build, hconn, hq]
  · simp [Proxmox.list_snapshots, Proxmox.list_snapshots_build, hconn, hl]
  · intro s hs
    have hkeep := List.of_mem_filter hs
    simp [Proxmox.keep_snapshot] at hkeep
    exact ⟨hkeep.1, hkeep.2⟩
  · intro s hs
    have hkeep := List.of_mem_filter hs
    simp [Proxmox.keep_snapshot] at hkeep
    exact ⟨hkeep.1, hkeep.2⟩

/-- Witness for C10 at a listing that contains a `current` pseudo-entry
and a nameless entry besides one real snapshot. -/
theorem proxmox_list_snapshots_filters_current_witness :
    (Proxmox.list_snapshots
      ⟨.ok (), .ok [⟨some "current", none, none, none⟩, ⟨none, some "x", some 1, none⟩,
        ⟨some "before-upgrade", some "ok", some 5, some 1⟩], .ok []⟩
      "pve" 101 "qemu" "T" =
      Proxmox.json_response "T" true (some [
        ("vmid", .jnum 101),
        ("node", .jstr "pve"),
        ("type", .jstr "qemu"),
        ("snapshots", .jarr (([(⟨some "current", none, none, none⟩ : Proxmox.PSnap),
          ⟨none, some "x", some 1, none⟩,
          ⟨some "before-upgrade", some "ok", some 5, some 1⟩].filter
            Proxmox.keep_snapshot).map Proxmox.snapshot_entry)),
        ("count", .jnum ((([(⟨some "current", none, none, none⟩ : Proxmox.PSnap),
          ⟨none, some "x", some 1, none⟩,
          ⟨some "before-upgrade", some "ok", some 5, some 1⟩].filter
            Proxmox.keep_snapshot).map Proxmox.snapshot_entry).length : Int))]) none none) ∧
    (∀ s ∈ [(⟨some "current", none, none, none⟩ : Proxmox.PSnap),
        ⟨none, some "x", some 1, none⟩,
        ⟨some "before-upgrade", some "ok", some 5, some 1⟩].filter Proxmox.keep_snapshot,
      s.name ≠ some "current" ∧ s.name ≠ none) :=
  ⟨(proxmox_list_snapshots_filters_current
      ⟨.ok (), .ok [⟨some "current", none, none, none⟩, ⟨none, some "x", some 1, none⟩,
        ⟨some "before-upgrade", some "ok", some 5, some 1⟩], .ok []⟩ "pve" 101 "T"
      [⟨some "current", none, none, none⟩, ⟨none, some "x", some 1, none⟩,
       ⟨some "before-upgrade", some "ok", some 5, some 1⟩] [] rfl rfl rfl).1,
   (proxmox_list_snapshots_filters_current
      ⟨.ok (), .ok [⟨some "current", none, none, none⟩, ⟨none, some "x", some 1, none⟩,
        ⟨some "before-upgrade", some "ok", some 5, some 1⟩], .ok []⟩ "pve" 101 "T"
      [⟨some "current", none, none, none⟩, ⟨none, some "x", some 1, none⟩,
       ⟨some "before-upgrade", some "ok", some 5, some 1⟩] [] rfl rfl rfl).2.2.1⟩

/-- Claim C7: every error class of the taxonomy — transport/auth failure
raised by the SDK, not-found, invalid kind tag, polling timeout, and
unexpected terminal state — is caught at the operation's `try/except`
boundary (the outermost boundary at which these errors can arise) and
converted into the standard failure response carrying a human-readable
message; in the model every operation is a total function into response
dictionaries, so no exception escapes. -/
theorem errors_become_failure_results (ts e : String) :
    (∀ (env : Hetzner.SnapshotEnv) (sid : Int) (desc : String),
      env.get_server_by_id sid = .error e →
      (Hetzner.create_snapshot env sid desc ts).1 =
        Hetzner.json_response ts false none (some e)) ∧
    (∀ (env : Hetzner.SnapshotEnv) (sid : Int) (desc : String),
      env.get_server_by_id sid = .ok none →
      (Hetzner.create_snapshot env sid desc ts).1 =
        Hetzner.json_response ts false none (some (Hetzner.server_not_found_message sid))) ∧
    (∀ (env : Proxmox.StartVmEnv) (node : String) (vmid : Int) (vt : String),
      env.connect = .ok () → vt ≠ "qemu" → vt ≠ "lxc" →
      Proxmox.start_vm env node vmid vt ts =
        (Proxmox.json_response ts false none
          (some (Proxmox.invalid_vm_type_message vt)) none, 0)) ∧
    (∀ (env : Proxmox.StartVmEnv) (node : String) (vmid : Int) (vt : String),
      env.connect = .error e →
      Proxmox.start_vm env node vmid vt ts =
        (Proxmox.json_response ts false none (some e) none, 0)) ∧
    (∀ (poll : Nat → Hetzner.PollObs) (sid timeout : Int),
      (∀ j, ∃ img, poll j = .found img ∧ img.status = "creating") →
      (Hetzner.wait_for_snapshot poll sid timeout ts).1 =
        Hetzner.json_response ts false none (some (Hetzner.timeout_message timeout))) ∧
    (∀ (poll : Nat → Hetzner.PollObs) (sid timeout : Int) (img : Hetzner.HImage),
      poll 0 = .found img → img.status ≠ "available" → img.status ≠ "creating" →
      0 < timeout →
      (Hetzner.wait_for_snapshot poll sid timeout ts).1 =
        Hetzner.json_response ts false none
          (some (Hetzner.unexpected_status_message img.status))) := by
  refine ⟨?_, ?_, ?_, ?_, ?_, ?_⟩
  · intro env sid desc herr
    simp [Hetzner.create_snapshot, herr]
  · intro env sid desc hnone
    simp [Hetzner.create_snapshot, hnone]
  · intro env node vmid vt hconn hq hl
    have hq2 : (vt == "qemu") = false := beq_eq_false_iff_ne.mpr hq
    have hl2 : (vt == "lxc") = false := beq_eq_false_iff_ne.mpr hl
    simp [Proxmox.start_vm, hconn, hq2, hl2]
  · intro env node vmid vt herr
    simp [Proxmox.start_vm, herr]
  · intro poll sid timeout hcreating
    exact Hetzner.wait_go_all_creating poll sid timeout ts hcreating (timeout.toNat + 1) 0
  · intro poll sid timeout img hpoll ha hcr hpos
    have := Hetzner.wait_go_unexpected poll sid timeout ts 0 (timeout.toNat + 1) 0 img
      (by omega) (fun j hj => absurd hj (Nat.not_lt_zero j))
      (by simpa using hpoll) ha hcr (by simpa using hpos)
    exact this

/-- Witness for C7: one concrete instance of each error class. -/
theorem errors_become_failure_results_witness :
    (Hetzner.create_snapshot
      ⟨fun _ => .error "401 unauthorized", .ok [], fun _ _ => .error "x"⟩ 3 "d" "T").1 =
      Hetzner.json_response "T" false none (some "401 unauthorized") ∧
    (Hetzner.create_snapshot
      ⟨fun _ => .ok none, .ok [], fun _ _ => .error "x"⟩ 3 "d" "T").1 =
      Hetzner.json_response "T" false none (some (Hetzner.server_not_found_message 3)) ∧
    Proxmox.start_vm
      ⟨.ok (), .ok ⟨"stopped"⟩, .ok ⟨"stopped"⟩, .ok (), .ok (),
       .ok ⟨"running"⟩, .ok ⟨"running"⟩⟩ "pve" 101 "openvz" "T" =
      (Proxmox.json_response "T" false none
        (some (Proxmox.invalid_vm_type_message "openvz")) none, 0) ∧
    Proxmox.start_vm
      ⟨.error "connection refused", .ok ⟨"stopped"⟩, .ok ⟨"stopped"⟩, .ok (), .ok (),
       .ok ⟨"running"⟩, .ok ⟨"running"⟩⟩ "pve" 101 "qemu" "T" =
      (Proxmox.json_response "T" false none (some "connection refused") none, 0) ∧
    (Hetzner.wait_for_snapshot
      (fun _ => .found ⟨9, "d", "creating", some 3, none, 20, none⟩) 9 15 "T").1 =
      Hetzner.json_response "T" false none (some (Hetzner.timeout_message 15)) ∧
    (Hetzner.wait_for_snapshot
      (fun _ => .found ⟨9, "d", "error", some 3, none, 20, none⟩) 9 15 "T").1 =
      Hetzner.json_response "T" false none (some (Hetzner.unexpected_status_message "error")) :=
  ⟨(errors_become_failure_results "T" "401 unauthorized").1 _ 3 "d" rfl,
   (errors_become_failure_results "T" "x").2.1 _ 3 "d" rfl,
   (errors_become_failure_results "T" "x").2.2.1 _ "pve" 101 "openvz" rfl
     (by decide) (by decide),
   (errors_become_failure_results "T" "connection refused").2.2.2.1 _ "pve" 101 "qemu" rfl,
   (errors_become_failure_results "T" "x").2.2.2.2.1
     (fun _ => .found ⟨9, "d", "creating", some 3, none, 20, none⟩) 9 15
     (fun _ => ⟨⟨9, "d", "creating", some 3, none, 20, none⟩, rfl, rfl⟩),
   (errors_become_failure_results "T" "x").2.2.2.2.2
     (fun _ => .found ⟨9, "d", "error", some 3, none, 20, none⟩) 9 15
     ⟨9, "d", "error", some 3, none, 20, none⟩ rfl (by decide) (by decide) (by decide)⟩
